import Mathlib

/-
  A shallow embedding of the simulation core of the wasm-rust-game-tutorial
  repository (src/game.rs): the player-character state machine, geometry,
  obstacles (platforms and barriers), background scrolling and the
  Loading/Loaded game lifecycle.

  Conventions of the embedding:
  * i16 arithmetic is modelled by unbounded integers (Int); every run of the
    Rust code in which no checked i16 operation overflows agrees with this
    model.
  * Rust panics (expect on a missing sprite cell) are modelled by Option:
    none is a panic, and a panic propagates through the tick.
  * The geometry primitives (Point, Rect, Image), the sprite-sheet types, the
    input snapshot and the character state machine live in engine.rs and
    state_machine.rs, which are not among the provided sources; they are
    modelled from the specification and their doc comments say so.
-/

namespace RHB

/-- Modelled from the spec: engine Point, a 2-d integer point (engine.rs is
not among the provided sources). -/
structure Point where
  x : Int
  y : Int
deriving DecidableEq, Repr

/-- Modelled from the spec: engine Rect, an axis-aligned rectangle with a
position (top-left corner), a width and a height (engine.rs is not among the
provided sources). -/
structure Rect where
  position : Point
  width : Int
  height : Int
deriving DecidableEq, Repr

def Rect.new (position : Point) (width height : Int) : Rect :=
  ⟨position, width, height⟩

def Rect.new_from_x_y (x y width height : Int) : Rect :=
  ⟨⟨x, y⟩, width, height⟩

def Rect.x (r : Rect) : Int := r.position.x

def Rect.y (r : Rect) : Int := r.position.y

def Rect.right (r : Rect) : Int := r.x + r.width

def Rect.bottom (r : Rect) : Int := r.y + r.height

def Rect.set_x (r : Rect) (x : Int) : Rect := { r with position.x := x }

/-- Modelled from the spec: axis-aligned rectangle intersection testing
(engine.rs is not among the provided sources). -/
def Rect.intersects (r o : Rect) : Bool :=
  r.x < o.right && o.x < r.right && r.y < o.bottom && o.y < r.bottom

/-- Rect::default(): the all-zero rectangle. -/
def Rect.zeroRect : Rect := ⟨⟨0, 0⟩, 0, 0⟩

/-- Modelled from the spec: engine Image, a static image whose bounding box
equals its image bounds; it can move horizontally and report its right edge
(engine.rs is not among the provided sources). Image handles are modelled by
their pixel dimensions (width, height). -/
structure Image where
  bounding_box : Rect
deriving DecidableEq, Repr

def Image.new (dims : Int × Int) (position : Point) : Image :=
  ⟨Rect.new position dims.1 dims.2⟩

def Image.move_horizontally (i : Image) (d : Int) : Image :=
  ⟨i.bounding_box.set_x (i.bounding_box.x + d)⟩

def Image.set_x (i : Image) (x : Int) : Image :=
  ⟨i.bounding_box.set_x x⟩

def Image.right (i : Image) : Int := i.bounding_box.right

/-- Modelled from the spec: one sub-rectangle record of a sprite-sheet
manifest (engine.rs is not among the provided sources). -/
structure SheetRect where
  x : Int
  y : Int
  w : Int
  h : Int
deriving DecidableEq, Repr

/-- Modelled from the spec: one named sprite cell — its source rectangle on
the sheet image and the art-trim offset of the drawn sprite (engine.rs is not
among the provided sources). -/
structure Cell where
  frame : SheetRect
  sprite_source_size : SheetRect
deriving DecidableEq, Repr

/-- Modelled from the spec: a sprite-sheet manifest mapping frame names to
cells (engine.rs is not among the provided sources). -/
structure Sheet where
  frames : List (String × Cell)
deriving DecidableEq, Repr

def Sheet.get (s : Sheet) (name : String) : Option Cell :=
  (s.frames.find? (fun p => p.1 == name)).map Prod.snd

/-- Modelled from the spec: a sheet manifest paired with its image, shared by
reference among platforms (engine.rs is not among the provided sources). -/
structure SpriteSheet where
  sheet : Sheet
deriving DecidableEq, Repr

def SpriteSheet.cell (s : SpriteSheet) (name : String) : Option Cell :=
  s.sheet.get name

/-- Modelled from the spec: the per-state compile-time constants of the
character state machine (state_machine.rs is not among the provided sources):
run speed, jump impulse, gravity, the floor line of the jumping-update
landing condition, the animation frame ceilings and the starting position. -/
structure Constants where
  runSpeed : Int
  jumpImpulse : Int
  gravity : Int
  floorY : Int
  idleFrames : Int
  runningFrames : Int
  slidingFrames : Int
  jumpingFrames : Int
  fallingFrames : Int
  startPosition : Point
deriving DecidableEq, Repr

/-- Modelled from the spec: RedHatBoyContext — position, velocity and the
animation frame counter (state_machine.rs is not among the provided
sources). -/
structure RedHatBoyContext where
  position : Point
  velocity : Point
  frame : Int
deriving DecidableEq, Repr

/-- Modelled from the spec: the closed set of character states, each owning
the shared context (state_machine.rs is not among the provided sources). -/
inductive RedHatBoyStateMachine where
  | Idle (ctx : RedHatBoyContext)
  | Running (ctx : RedHatBoyContext)
  | Sliding (ctx : RedHatBoyContext)
  | Jumping (ctx : RedHatBoyContext)
  | Falling (ctx : RedHatBoyContext)
  | KnockedOut (ctx : RedHatBoyContext)
deriving DecidableEq, Repr

/-- Modelled from the spec: the discrete events fed to the state machine
(state_machine.rs is not among the provided sources). -/
inductive Event where
  | Run
  | Slide
  | Jump
  | KnockOut
  | Land (y : Int)
  | Update
deriving DecidableEq, Repr

def RedHatBoyStateMachine.context : RedHatBoyStateMachine → RedHatBoyContext
  | .Idle c | .Running c | .Sliding c | .Jumping c | .Falling c | .KnockedOut c => c

/-- Modelled from the spec: the animation name prefix of each state
(state_machine.rs is not among the provided sources). -/
def RedHatBoyStateMachine.frame_name : RedHatBoyStateMachine → String
  | .Idle _ => "Idle"
  | .Running _ => "Run"
  | .Sliding _ => "Slide"
  | .Jumping _ => "Jump"
  | .Falling _ => "Dead"
  | .KnockedOut _ => "Dead"

/-- Modelled from the spec: the frame counter advances once per update tick
and wraps at the state's frame ceiling. -/
def advanceFrame (ceiling : Int) (ctx : RedHatBoyContext) : RedHatBoyContext :=
  if ctx.frame < ceiling then { ctx with frame := ctx.frame + 1 }
  else { ctx with frame := 0 }

/-- Modelled from the spec: the transition table of the character state
machine (state_machine.rs is not among the provided sources).  Every
(state, event) pair absent from the table is a no-op; the frame counter
resets to 0 on transition into a new state. -/
def RedHatBoyStateMachine.transition (c : Constants) :
    RedHatBoyStateMachine → Event → RedHatBoyStateMachine
  | .Idle ctx, .Run => .Running { ctx with velocity.x := c.runSpeed, frame := 0 }
  | .Idle ctx, .Update => .Idle (advanceFrame c.idleFrames ctx)
  | .Running ctx, .Slide => .Sliding { ctx with frame := 0 }
  | .Running ctx, .Jump => .Jumping { ctx with velocity.y := -c.jumpImpulse, frame := 0 }
  | .Running ctx, .Land y => .Running { ctx with position.y := y }
  | .Running ctx, .KnockOut => .Falling { ctx with velocity := ⟨0, 0⟩, frame := 0 }
  | .Running ctx, .Update =>
      .Running (advanceFrame c.runningFrames
        { ctx with position.x := ctx.position.x + ctx.velocity.x })
  | .Sliding ctx, .Update =>
      if c.slidingFrames ≤ ctx.frame then .Running { ctx with frame := 0 }
      else .Sliding (advanceFrame c.slidingFrames ctx)
  | .Sliding ctx, .Land y => .Sliding { ctx with position.y := y }
  | .Sliding ctx, .KnockOut => .Falling { ctx with velocity := ⟨0, 0⟩, frame := 0 }
  | .Jumping ctx, .Update =>
      let vy := ctx.velocity.y + c.gravity
      let p : Point := ⟨ctx.position.x + ctx.velocity.x, ctx.position.y + vy⟩
      if c.floorY ≤ p.y then
        .Running { position := ⟨p.x, c.floorY⟩, velocity := ⟨ctx.velocity.x, 0⟩, frame := 0 }
      else .Jumping (advanceFrame c.jumpingFrames { ctx with position := p, velocity.y := vy })
  | .Jumping ctx, .Land y => .Running { ctx with position.y := y, velocity.y := 0, frame := 0 }
  | .Jumping ctx, .KnockOut => .Falling { ctx with velocity := ⟨0, 0⟩, frame := 0 }
  | .Falling ctx, .Update =>
      if c.fallingFrames ≤ ctx.frame then .KnockedOut ctx
      else .Falling (advanceFrame c.fallingFrames ctx)
  | m, _ => m

/-- Modelled from the spec: the implicit per-tick event. -/
def RedHatBoyStateMachine.update (c : Constants) (m : RedHatBoyStateMachine) :
    RedHatBoyStateMachine :=
  m.transition c .Update

/-- The character entity of src/game.rs: the state machine plus the sprite
sheet (the image handle is draw-only and dropped). -/
structure RedHatBoy where
  state_machine : RedHatBoyStateMachine
  sprite_sheet : Sheet
deriving DecidableEq, Repr

/-- RedHatBoy::new: starts Idle (initial context modelled from the spec). -/
def RedHatBoy.new (c : Constants) (sheet : Sheet) : RedHatBoy :=
  ⟨.Idle ⟨c.startPosition, ⟨0, 0⟩, 0⟩, sheet⟩

/-- RedHatBoy::frame_name: state tag plus frame/3 + 1. -/
def RedHatBoy.frame_name (boy : RedHatBoy) : String :=
  boy.state_machine.frame_name ++ " (" ++
    toString (boy.state_machine.context.frame.tdiv 3 + 1) ++ ").png"

def RedHatBoy.current_sprite (boy : RedHatBoy) : Option Cell :=
  boy.sprite_sheet.get boy.frame_name

/-- RedHatBoy::destination_box; the expect on a missing cell is the none
case. -/
def RedHatBoy.destination_box (boy : RedHatBoy) : Option Rect :=
  boy.current_sprite.map (fun sprite =>
    Rect.new_from_x_y
      (boy.state_machine.context.position.x + sprite.sprite_source_size.x)
      (boy.state_machine.context.position.y + sprite.sprite_source_size.y)
      sprite.frame.w
      sprite.frame.h)

def X_OFFSET : Int := 18

def Y_OFFSET : Int := 14

def WIDTH_OFFSET : Int := 28

/-- RedHatBoy::bounding_box: the destination box shrunk by the fixed
offsets. -/
def RedHatBoy.bounding_box (boy : RedHatBoy) : Option Rect :=
  boy.destination_box.map (fun b =>
    Rect.new_from_x_y (b.x + X_OFFSET) (b.y + Y_OFFSET)
      (b.width - WIDTH_OFFSET) (b.height - Y_OFFSET))

def RedHatBoy.pos_y (boy : RedHatBoy) : Int :=
  boy.state_machine.context.position.y

def RedHatBoy.velocity_y (boy : RedHatBoy) : Int :=
  boy.state_machine.context.velocity.y

def RedHatBoy.walking_speed (boy : RedHatBoy) : Int :=
  boy.state_machine.context.velocity.x

def RedHatBoy.update (c : Constants) (boy : RedHatBoy) : RedHatBoy :=
  { boy with state_machine := boy.state_machine.update c }

def RedHatBoy.run_right (c : Constants) (boy : RedHatBoy) : RedHatBoy :=
  { boy with state_machine := boy.state_machine.transition c .Run }

def RedHatBoy.slide (c : Constants) (boy : RedHatBoy) : RedHatBoy :=
  { boy with state_machine := boy.state_machine.transition c .Slide }

def RedHatBoy.jump (c : Constants) (boy : RedHatBoy) : RedHatBoy :=
  { boy with state_machine := boy.state_machine.transition c .Jump }

def RedHatBoy.knock_out (c : Constants) (boy : RedHatBoy) : RedHatBoy :=
  { boy with state_machine := boy.state_machine.transition c .KnockOut }

def RedHatBoy.land_on (c : Constants) (boy : RedHatBoy) (position : Int) : RedHatBoy :=
  { boy with state_machine := boy.state_machine.transition c (.Land position) }

/-- src/game.rs Platform: sheet, absolute collision rectangles, visual
sprites, anchor position. -/
structure Platform where
  sheet : SpriteSheet
  bounding_boxes : List Rect
  sprites : List Cell
  position : Point
deriving DecidableEq, Repr

/-- src/game.rs Barrier: a single image. -/
structure Barrier where
  image : Image
deriving DecidableEq, Repr

/-- Platform::new: looks up the named sprite cells (missing names are
filtered out) and offsets every supplied collision rectangle by the anchor
position once. -/
def Platform.new (sheet : SpriteSheet) (position : Point)
    (sprite_names : List String) (bounding_boxes : List Rect) : Platform :=
  { sheet := sheet
    position := position
    sprites := sprite_names.filterMap (fun n => sheet.cell n)
    bounding_boxes := bounding_boxes.map (fun b =>
      Rect.new_from_x_y (b.x + position.x) (b.y + position.y) b.width b.height) }

def Platform.move_horizontally (p : Platform) (x : Int) : Platform :=
  { p with
    position.x := p.position.x + x
    bounding_boxes := p.bounding_boxes.map (fun b => b.set_x (b.position.x + x)) }

/-- Platform::check_intersection: find the first stored rectangle hit by the
character's bounding box; land when falling from above the anchor, otherwise
knock out.  When the rectangle list is empty the closure never runs, so the
bounding-box lookup cannot panic. -/
def Platform.check_intersection (c : Constants) (p : Platform) (boy : RedHatBoy) :
    Option RedHatBoy :=
  if p.bounding_boxes.isEmpty then some boy
  else
    boy.bounding_box.map (fun bb =>
      match p.bounding_boxes.find? (fun r => bb.intersects r) with
      | some box_to_land_on =>
          if boy.velocity_y > 0 ∧ boy.pos_y < p.position.y then
            boy.land_on c box_to_land_on.y
          else boy.knock_out c
      | none => boy)

/-- Platform::right: the right edge of the last stored rectangle (or of the
default rectangle when there is none). -/
def Platform.right (p : Platform) : Int :=
  (p.bounding_boxes.getLast?.getD Rect.zeroRect).right

def Barrier.new (image : Image) : Barrier := ⟨image⟩

/-- Barrier::check_intersection: any intersection knocks the character out. -/
def Barrier.check_intersection (c : Constants) (b : Barrier) (boy : RedHatBoy) :
    Option RedHatBoy :=
  boy.bounding_box.map (fun bb =>
    if bb.intersects b.image.bounding_box then boy.knock_out c else boy)

def Barrier.move_horizontally (b : Barrier) (x : Int) : Barrier :=
  ⟨b.image.move_horizontally x⟩

def Barrier.right (b : Barrier) : Int := b.image.right

/-- The Obstacle trait with its two implementors. -/
inductive Obstacle where
  | platform (p : Platform)
  | barrier (b : Barrier)
deriving DecidableEq, Repr

def Obstacle.check_intersection (c : Constants) : Obstacle → RedHatBoy → Option RedHatBoy
  | .platform p, boy => Platform.check_intersection c p boy
  | .barrier b, boy => Barrier.check_intersection c b boy

def Obstacle.move_horizontally : Obstacle → Int → Obstacle
  | .platform p, x => .platform (p.move_horizontally x)
  | .barrier b, x => .barrier (b.move_horizontally x)

def Obstacle.right : Obstacle → Int
  | .platform p => p.right
  | .barrier b => b.right

/-- src/game.rs Walk: the character, the two tiling backgrounds, the live
obstacle list and the shared obstacle sheet. -/
structure Walk where
  boy : RedHatBoy
  backgrounds : Image × Image
  obstacles : List Obstacle
  obstacle_sheet : SpriteSheet
deriving DecidableEq, Repr

def Walk.velocity (w : Walk) : Int := -w.boy.walking_speed

/-- src/game.rs WalkTheDog: the two-state lifecycle wrapper. -/
inductive WalkTheDog where
  | Loading
  | Loaded (walk : Walk)
deriving DecidableEq, Repr

/-- Modelled from the spec: the polled input snapshot — the set of currently
pressed key codes (engine.rs is not among the provided sources). -/
structure KeyState where
  pressed : List String
deriving DecidableEq, Repr

def KeyState.is_pressed (k : KeyState) (code : String) : Bool :=
  k.pressed.contains code

/-- The input-application and per-tick-update prefix of WalkTheDog::update:
slide on ArrowDown, run on ArrowRight, jump on Space (ArrowUp and ArrowLeft
are empty handlers in the source), then the character's own update. -/
def stepBoy (c : Constants) (k : KeyState) (boy : RedHatBoy) : RedHatBoy :=
  let boy := if k.is_pressed "ArrowDown" then boy.slide c else boy
  let boy := if k.is_pressed "ArrowRight" then boy.run_right c else boy
  let boy := if k.is_pressed "Space" then boy.jump c else boy
  boy.update c

/-- The background scroll-and-relocate step of WalkTheDog::update: move both
backgrounds by the scroll velocity, then relocate whichever has scrolled past
the left edge to the other's right edge (the second test sees the already
relocated first background). -/
def backgroundStep (velocity : Int) (bgs : Image × Image) : Image × Image :=
  let first_background := bgs.1.move_horizontally velocity
  let second_background := bgs.2.move_horizontally velocity
  let first_background :=
    if first_background.right < 0 then first_background.set_x second_background.right
    else first_background
  let second_background :=
    if second_background.right < 0 then second_background.set_x first_background.right
    else second_background
  (first_background, second_background)

/-- The per-obstacle loop of WalkTheDog::update: in list order, translate the
obstacle by the scroll velocity, then run its intersection check against the
current character state. -/
def processObstacles (c : Constants) (velocity : Int) :
    List Obstacle → RedHatBoy → Option (List Obstacle × RedHatBoy)
  | [], boy => some ([], boy)
  | o :: rest, boy =>
      let o := o.move_horizontally velocity
      match o.check_intersection c boy with
      | none => none
      | some boy =>
          match processObstacles c velocity rest boy with
          | none => none
          | some (rest, boy) => some (o :: rest, boy)

/-- WalkTheDog::update: a no-op while Loading; when Loaded, apply input and
the character update, compute the scroll velocity, scroll the backgrounds,
cull the obstacles whose right edge is at or past 0, then move and
intersection-check the survivors in order. -/
def WalkTheDog.update (c : Constants) (g : WalkTheDog) (k : KeyState) :
    Option WalkTheDog :=
  match g with
  | .Loading => some .Loading
  | .Loaded walk =>
      let boy := stepBoy c k walk.boy
      let velocity := -boy.walking_speed
      let backgrounds := backgroundStep velocity walk.backgrounds
      let obstacles := walk.obstacles.filter (fun o => 0 < o.right)
      match processObstacles c velocity obstacles boy with
      | none => none
      | some (obstacles, boy) =>
          some (.Loaded
            { walk with boy := boy, backgrounds := backgrounds, obstacles := obstacles })

def HEIGHT : Int := 600

def LOW_PLATFORM : Int := 420

def HIGH_PLATFORM : Int := 375

def FIRST_PLATFORM : Int := 370

/-- Modelled from the spec: the results of the asynchronous, fallible asset
fetches consumed by initialization; image handles are modelled by their pixel
dimensions. -/
structure Assets where
  rhb_sheet : Option Sheet
  rhb_image : Option (Int × Int)
  background : Option (Int × Int)
  stone : Option (Int × Int)
  tiles : Option Sheet
  tiles_image : Option (Int × Int)
deriving DecidableEq, Repr

/-- WalkTheDog::initialize: fails on an already Loaded instance; on Loading,
builds the Walk from the fetched assets (a failed fetch or decode is an
error), with the stone barrier and the first platform as the initial
obstacles and the two backgrounds side by side. -/
def WalkTheDog.init (c : Constants) (g : WalkTheDog) (a : Assets) :
    Except String WalkTheDog :=
  match g with
  | .Loaded _ => .error "Error: Game is already initialized!"
  | .Loading =>
      match a.rhb_sheet, a.rhb_image, a.background, a.stone, a.tiles, a.tiles_image with
      | some json, some _, some background, some stone, some tiles, some _ =>
          let rhb := RedHatBoy.new c json
          let sprite_sheet : SpriteSheet := ⟨tiles⟩
          let platform := Platform.new sprite_sheet ⟨FIRST_PLATFORM, LOW_PLATFORM⟩
            ["13.png", "14.png", "15.png"]
            [Rect.new_from_x_y 0 0 60 54,
             Rect.new_from_x_y 60 0 (384 - 60 * 2) 93,
             Rect.new_from_x_y (384 - 60) 0 60 54]
          let background_width := background.1
          .ok (.Loaded
            { boy := rhb
              backgrounds :=
                (Image.new background ⟨0, 0⟩, Image.new background ⟨background_width, 0⟩)
              obstacles :=
                [.barrier (Barrier.new (Image.new stone ⟨150, 546⟩)), .platform platform]
              obstacle_sheet := sprite_sheet })
      | _, _, _, _, _, _ => .error "asset loading failed"

/-! Shared concrete sample data, used by witnesses and counterexamples. -/

/-- Sample compile-time constants for the state machine. -/
def cS : Constants :=
  { runSpeed := 4, jumpImpulse := 25, gravity := 1, floorY := 479,
    idleFrames := 29, runningFrames := 23, slidingFrames := 14,
    jumpingFrames := 35, fallingFrames := 29, startPosition := ⟨0, 475⟩ }

/-- Sample sprite cell: a 160 x 136 frame trimmed by (10, 20). -/
def cellS : Cell :=
  { frame := ⟨0, 0, 160, 136⟩, sprite_source_size := ⟨10, 20, 0, 0⟩ }

/-- Sample character sheet holding the one frame the sample boy uses. -/
def sheetS : Sheet := ⟨[("Run (1).png", cellS)]⟩

/-- Sample character: Running at (100, 300), falling (velocity.y = 5). -/
def boyS : RedHatBoy := ⟨.Running ⟨⟨100, 300⟩, ⟨4, 5⟩, 0⟩, sheetS⟩

/-- The sample boy's bounding box (destination box (110, 320, 160, 136)
shrunk by the fixed offsets). -/
def bbS : Rect := Rect.new_from_x_y 128 334 132 122

/-- A rectangle far from the sample boy. -/
def rA : Rect := Rect.new_from_x_y 0 0 10 10

/-- A rectangle the sample boy's bounding box intersects. -/
def rS : Rect := Rect.new_from_x_y 120 420 200 50

/-- Sample platform whose second stored rectangle is the first hit. -/
def platS : Platform :=
  { sheet := ⟨⟨[]⟩⟩, position := ⟨200, 420⟩, sprites := [], bounding_boxes := [rA, rS] }

/-- Sample barrier occupying the same rectangle the sample boy hits. -/
def barS : Barrier := ⟨⟨rS⟩⟩

/-- Sample input snapshot: no key pressed. -/
def keyS : KeyState := ⟨[]⟩

/-- Sample backgrounds: two 600-wide images side by side. -/
def imgA : Image := Image.new (600, 600) ⟨0, 0⟩

def imgB : Image := Image.new (600, 600) ⟨600, 0⟩

/-- Sample obstacle that survives culling and misses the boy. -/
def barFar : Barrier := ⟨⟨Rect.new_from_x_y 500 0 100 10⟩⟩

/-- Sample obstacle already scrolled off: right() = -20 ≤ 0. -/
def barGone : Barrier := ⟨⟨Rect.new_from_x_y (-50) 0 30 10⟩⟩

/-- Sample loaded world. -/
def walkS : Walk :=
  { boy := boyS, backgrounds := (imgA, imgB),
    obstacles := [.barrier barFar, .barrier barGone], obstacle_sheet := ⟨⟨[]⟩⟩ }

/-- Sample world with no obstacles (used where only backgrounds matter). -/
def walkBgS : Walk :=
  { boy := boyS, backgrounds := (imgA, imgB), obstacles := [], obstacle_sheet := ⟨⟨[]⟩⟩ }

/-- Sample complete asset-load results. -/
def assetsFull : Assets :=
  { rhb_sheet := some ⟨[]⟩, rhb_image := some (160, 136), background := some (600, 600),
    stone := some (146, 54), tiles := some ⟨[]⟩, tiles_image := some (400, 400) }

/-- Sample sheet that contains no cells at all. -/
def sheetEmptyS : SpriteSheet := ⟨⟨[]⟩⟩

/-! Helper lemmas. -/

/-- find? returns the first element satisfying the predicate: everything
before it fails the predicate. -/
theorem find_skips_misses {α : Type} (p : α → Bool) (l1 l2 : List α) (a : α)
    (h1 : ∀ x ∈ l1, p x = false) (ha : p a = true) :
    (l1 ++ a :: l2).find? p = some a := by
  induction l1 with
  | nil => simp [List.find?_cons, ha]
  | cons x xs ih =>
      have hx := h1 x (by simp)
      simp only [List.cons_append, List.find?_cons, hx]
      exact ih (fun y hy => h1 y (by simp [hy]))

/-- The obstacle loop leaves every obstacle translated by the velocity and
otherwise unchanged: intersection checks mutate only the character. -/
theorem processObstacles_moves (c : Constants) (v : Int) (obs : List Obstacle)
    (boy : RedHatBoy) (r : List Obstacle × RedHatBoy)
    (h : processObstacles c v obs boy = some r) :
    r.1 = obs.map (fun o => o.move_horizontally v) := by
  induction obs generalizing boy r with
  | nil =>
      simp only [processObstacles] at h
      cases h
      simp
  | cons o rest ih =>
      cases hc : Obstacle.check_intersection c (o.move_horizontally v) boy with
      | none => simp [processObstacles, hc] at h
      | some boy1 =>
          cases hr : processObstacles c v rest boy1 with
          | none => simp [processObstacles, hc, hr] at h
          | some r1 =>
              simp only [processObstacles, hc, hr] at h
              rw [Option.some_inj] at h
              subst h
              simp [ih boy1 r1 hr]

/-! Claims. -/

/-- C10: update on a Loading game is a complete no-op for every key state:
the value stays Loading and nothing is applied. -/
theorem c10_update_loading_noop (c : Constants) (k : KeyState) :
    WalkTheDog.update c .Loading k = some .Loading := rfl

/-- Moving a platform translates each stored rectangle's x by the delta. -/
theorem platform_move_boxes (p : Platform) (dx : Int) :
    (p.move_horizontally dx).bounding_boxes
      = p.bounding_boxes.map (fun b => b.set_x (b.position.x + dx)) := rfl

/-- C5: Platform::new offsets each supplied anchor-relative rectangle by the
anchor exactly once, and N applications of move_horizontally(dx) leave each
stored rectangle at x = relative x + anchor.x + N*dx with y, width and height
unchanged from construction — N incremental moves equal one move by N*dx. -/
theorem c5_platform_move_no_drift (sheet : SpriteSheet) (anchor : Point)
    (names : List String) (rects : List Rect) (dx : Int) (N : ℕ) :
    ((fun q => Platform.move_horizontally q dx)^[N]
        (Platform.new sheet anchor names rects)).bounding_boxes
      = rects.map (fun r =>
          Rect.new_from_x_y (r.x + anchor.x + N * dx) (r.y + anchor.y) r.width r.height) := by
  induction N with
  | zero =>
      simp only [Function.iterate_zero, id_eq, Nat.cast_zero, zero_mul, add_zero]
      rfl
  | succ n ih =>
      rw [Function.iterate_succ_apply']
      simp only [platform_move_boxes]
      rw [ih, List.map_map]
      apply List.map_congr_left
      intro r _
      simp only [Function.comp_apply, Rect.set_x, Rect.new_from_x_y, Rect.x, Rect.y,
        Rect.mk.injEq, Point.mk.injEq]
      refine ⟨⟨?_, trivial⟩, trivial, trivial⟩
      push_cast
      ring

/-- C7: the surviving obstacles are processed strictly in list order; each is
first translated by the scroll velocity, then intersection-checked against
the current character, and the character state an obstacle produces is the
state every later obstacle's check sees (the loop decomposes sequentially
over list append). -/
theorem c7_obstacles_in_order (c : Constants) :
    (∀ (k : KeyState) (walk : Walk),
      WalkTheDog.update c (.Loaded walk) k =
        (processObstacles c (-(stepBoy c k walk.boy).walking_speed)
            (walk.obstacles.filter (fun o => 0 < o.right)) (stepBoy c k walk.boy)).map
          (fun r => .Loaded
            { walk with
              boy := r.2
              backgrounds :=
                backgroundStep (-(stepBoy c k walk.boy).walking_speed) walk.backgrounds
              obstacles := r.1 })) ∧
    (∀ (v : Int) (o : Obstacle) (rest : List Obstacle) (boy : RedHatBoy),
      processObstacles c v (o :: rest) boy =
        (Obstacle.check_intersection c (o.move_horizontally v) boy).bind
          (fun boy1 => (processObstacles c v rest boy1).map
            (fun r => (o.move_horizontally v :: r.1, r.2)))) ∧
    (∀ (v : Int) (l1 l2 : List Obstacle) (boy : RedHatBoy),
      processObstacles c v (l1 ++ l2) boy =
        (processObstacles c v l1 boy).bind
          (fun r1 => (processObstacles c v l2 r1.2).map
            (fun r2 => (r1.1 ++ r2.1, r2.2)))) := by
  refine ⟨?_, ?_, ?_⟩
  · intro k walk
    simp only [WalkTheDog.update]
    cases processObstacles c (-(stepBoy c k walk.boy).walking_speed)
        (walk.obstacles.filter (fun o => 0 < o.right)) (stepBoy c k walk.boy) with
    | none => rfl
    | some r => rfl
  · intro v o rest boy
    cases hc : Obstacle.check_intersection c (o.move_horizontally v) boy with
    | none => simp [processObstacles, hc]
    | some boy1 =>
        cases hr : processObstacles c v rest boy1 with
        | none => simp [processObstacles, hc, hr]
        | some r => simp [processObstacles, hc, hr]
  · intro v l1 l2 boy
    induction l1 generalizing boy with
    | nil =>
        simp [processObstacles]
    | cons o rest ih =>
        cases hc : Obstacle.check_intersection c (o.move_horizontally v) boy with
        | none => simp [processObstacles, hc]
        | some boy1 =>
            simp only [List.cons_append, processObstacles, hc, Option.bind_some,
              List.append_eq]
            rw [ih boy1]
            cases hr : processObstacles c v rest boy1 with
            | none => simp
            | some r1 =>
                simp only [Option.bind_some]
                cases hl : processObstacles c v l2 r1.2 with
                | none => simp [hl]
                | some r2 => simp [hl]

/-- C4: the cull step removes from the obstacle list exactly the obstacles
whose right edge is at or past 0, judged on the positions at the start of the
tick (culling precedes the move): after a successful tick the list is
precisely the retained (right > 0) obstacles, each translated by the scroll
velocity; an obstacle with right() ≤ 0 is not in the culled list, and every
obstacle present after the tick is the translate of a retained one, so
update never inserts obstacles and a culled obstacle never reappears. -/
theorem c4_cull_exact (c : Constants) (k : KeyState) (walk : Walk) (g' : WalkTheDog)
    (h : WalkTheDog.update c (.Loaded walk) k = some g') :
    ∃ walk', g' = .Loaded walk' ∧
      walk'.obstacles = (walk.obstacles.filter (fun o => 0 < o.right)).map
        (fun o => o.move_horizontally (-(stepBoy c k walk.boy).walking_speed)) ∧
      (∀ o ∈ walk.obstacles, o.right ≤ 0 →
        o ∉ walk.obstacles.filter (fun o => 0 < o.right)) ∧
      (∀ o' ∈ walk'.obstacles, ∃ o ∈ walk.obstacles, 0 < o.right ∧
        o' = o.move_horizontally (-(stepBoy c k walk.boy).walking_speed)) := by
  cases hp : processObstacles c (-(stepBoy c k walk.boy).walking_speed)
      (walk.obstacles.filter (fun o => 0 < o.right)) (stepBoy c k walk.boy) with
  | none => simp [WalkTheDog.update, hp] at h
  | some r =>
      simp only [WalkTheDog.update, hp] at h
      rw [Option.some_inj] at h
      subst h
      have hfst := processObstacles_moves _ _ _ _ _ hp
      refine ⟨_, rfl, by simpa using hfst, ?_, ?_⟩
      · intro o _ hle
        simp only [List.mem_filter, decide_eq_true_eq, not_and]
        intro _
        omega
      · intro o' ho'
        simp only [hfst, List.mem_map, List.mem_filter, decide_eq_true_eq] at ho'
        obtain ⟨o, ⟨ho, hgt⟩, rfl⟩ := ho'
        exact ⟨o, ho, hgt, rfl⟩

/-- C4 witness: the sample world has one obstacle past the left edge
(right = -20) and one alive; the tick succeeds and the conclusion holds. -/
theorem c4_witness :
    ∃ walk', (WalkTheDog.update cS (.Loaded walkS) keyS).getD .Loading = .Loaded walk' ∧
      walk'.obstacles = (walkS.obstacles.filter (fun o => 0 < o.right)).map
        (fun o => o.move_horizontally (-(stepBoy cS keyS walkS.boy).walking_speed)) ∧
      (∀ o ∈ walkS.obstacles, o.right ≤ 0 →
        o ∉ walkS.obstacles.filter (fun o => 0 < o.right)) ∧
      (∀ o' ∈ walk'.obstacles, ∃ o ∈ walkS.obstacles, 0 < o.right ∧
        o' = o.move_horizontally (-(stepBoy cS keyS walkS.boy).walking_speed)) :=
  c4_cull_exact cS keyS walkS _ (by rfl)

/-- Two images are adjacent: one begins exactly at the other's right edge. -/
def adjacent (b1 b2 : Image) : Prop :=
  b2.bounding_box.x = b1.right ∨ b1.bounding_box.x = b2.right

/-- The background scroll-and-relocate step preserves the widths and the
adjacency of the two backgrounds. -/
theorem backgroundStep_adjacent (v W : Int) (b1 b2 : Image)
    (hw1 : b1.bounding_box.width = W) (hw2 : b2.bounding_box.width = W)
    (hadj : adjacent b1 b2) :
    (backgroundStep v (b1, b2)).1.bounding_box.width = W ∧
    (backgroundStep v (b1, b2)).2.bounding_box.width = W ∧
    adjacent (backgroundStep v (b1, b2)).1 (backgroundStep v (b1, b2)).2 := by
  obtain ⟨⟨⟨x1, y1⟩, w1, h1⟩⟩ := b1
  obtain ⟨⟨⟨x2, y2⟩, w2, h2⟩⟩ := b2
  simp only [backgroundStep, Image.move_horizontally, Image.set_x, Image.right,
    Rect.set_x, Rect.right, Rect.x, adjacent] at *
  split_ifs <;> simp_all <;> omega

/-- C6: on a successful tick both backgrounds are translated by the scroll
velocity (the negative of the character's horizontal speed) and any
background whose right edge passed 0 is relocated to the other background's
right edge (this is backgroundStep, whose second test sees the already
relocated first background); for two equal-width adjacent backgrounds the
pair stays equal-width and adjacent — no gap and no overlap — and since the
conclusion re-establishes the hypotheses, adjacency persists at every
subsequent tick. -/
theorem c6_background_tiling (c : Constants) (k : KeyState) (walk : Walk)
    (g' : WalkTheDog) (W : Int)
    (h : WalkTheDog.update c (.Loaded walk) k = some g')
    (hw1 : walk.backgrounds.1.bounding_box.width = W)
    (hw2 : walk.backgrounds.2.bounding_box.width = W)
    (hadj : adjacent walk.backgrounds.1 walk.backgrounds.2) :
    ∃ walk', g' = .Loaded walk' ∧
      walk'.backgrounds =
        backgroundStep (-(stepBoy c k walk.boy).walking_speed) walk.backgrounds ∧
      walk'.backgrounds.1.bounding_box.width = W ∧
      walk'.backgrounds.2.bounding_box.width = W ∧
      adjacent walk'.backgrounds.1 walk'.backgrounds.2 := by
  cases hp : processObstacles c (-(stepBoy c k walk.boy).walking_speed)
      (walk.obstacles.filter (fun o => 0 < o.right)) (stepBoy c k walk.boy) with
  | none => simp [WalkTheDog.update, hp] at h
  | some r =>
      simp only [WalkTheDog.update, hp] at h
      rw [Option.some_inj] at h
      subst h
      exact ⟨_, rfl, rfl,
        backgroundStep_adjacent (-(stepBoy c k walk.boy).walking_speed) W
          walk.backgrounds.1 walk.backgrounds.2 hw1 hw2 hadj⟩

/-- C6 witness: two 600-wide backgrounds at x = 0 and x = 600 stay adjacent
through a tick of the sample world. -/
theorem c6_witness :
    ∃ walk', (WalkTheDog.update cS (.Loaded walkBgS) keyS).getD .Loading = .Loaded walk' ∧
      walk'.backgrounds =
        backgroundStep (-(stepBoy cS keyS walkBgS.boy).walking_speed) walkBgS.backgrounds ∧
      walk'.backgrounds.1.bounding_box.width = 600 ∧
      walk'.backgrounds.2.bounding_box.width = 600 ∧
      adjacent walk'.backgrounds.1 walk'.backgrounds.2 :=
  c6_background_tiling cS keyS walkBgS _ 600 (by rfl) rfl rfl (Or.inl rfl)

/-- A character with a resolvable sprite turns Platform::check_intersection
into a pure function of the first intersecting rectangle. -/
theorem platform_check_eq (c : Constants) (p : Platform) (boy : RedHatBoy) (bb : Rect)
    (hbb : boy.bounding_box = some bb) :
    Platform.check_intersection c p boy =
      some (match p.bounding_boxes.find? (fun r => bb.intersects r) with
            | some box => if boy.velocity_y > 0 ∧ boy.pos_y < p.position.y
                          then boy.land_on c box.y else boy.knock_out c
            | none => boy) := by
  unfold Platform.check_intersection
  by_cases he : p.bounding_boxes.isEmpty
  · have hnil : p.bounding_boxes = [] := by simpa using he
    simp [he, hnil, List.find?]
  · simp [he, hbb]

/-- C1: a platform tests its stored rectangles in list order against the
character's bounding box and acts only on the first intersecting one,
emitting at most one event per call: Land(rectangle.y) when the vertical
velocity is strictly downward (velocity.y > 0) and the character's y is
strictly above the platform's anchor y, and KnockOut otherwise; when no
rectangle intersects, the character is returned unchanged. -/
theorem c1_platform_first_hit (c : Constants) (p : Platform) (boy : RedHatBoy)
    (bb : Rect) (hbb : boy.bounding_box = some bb) :
    ((∀ r ∈ p.bounding_boxes, bb.intersects r = false) →
      Platform.check_intersection c p boy = some boy) ∧
    (∀ l1 r l2, p.bounding_boxes = l1 ++ r :: l2 →
      (∀ r' ∈ l1, bb.intersects r' = false) → bb.intersects r = true →
      Platform.check_intersection c p boy =
        some (if boy.velocity_y > 0 ∧ boy.pos_y < p.position.y
              then boy.land_on c r.y else boy.knock_out c)) := by
  constructor
  · intro hmiss
    rw [platform_check_eq c p boy bb hbb]
    have hnone : p.bounding_boxes.find? (fun r => bb.intersects r) = none := by
      rw [List.find?_eq_none]
      intro x hx
      simpa using hmiss x hx
    rw [hnone]
  · intro l1 r l2 hsplit h1 hr
    rw [platform_check_eq c p boy bb hbb, hsplit,
      find_skips_misses (fun r => bb.intersects r) l1 l2 r h1 hr]

/-- C1 witness: the sample platform's first rectangle misses the sample boy
and the second hits; the boy is falling from above the anchor, so it lands
on the second rectangle's y. -/
theorem c1_witness :
    Platform.check_intersection cS platS boyS =
      some (if RedHatBoy.velocity_y boyS > 0 ∧ RedHatBoy.pos_y boyS < platS.position.y
            then RedHatBoy.land_on cS boyS (Rect.y rS)
            else RedHatBoy.knock_out cS boyS) :=
  (c1_platform_first_hit cS platS boyS bbS (by decide)).2 [rA] rS []
    (by decide) (by decide) (by decide)

/-- C2 counterexample: the sample boy is falling (velocity.y = 5 > 0) from
above the barrier's anchor (300 < 420) and its bounding box intersects the
barrier, yet the barrier emits KnockOut (the boy enters Falling), not the
Land event the claimed uniform policy requires, and the two resulting
characters differ. -/
theorem c2_counterexample_barrier_knockout :
    RedHatBoy.velocity_y boyS > 0 ∧
    RedHatBoy.pos_y boyS < barS.image.bounding_box.y ∧
    RedHatBoy.bounding_box boyS = some bbS ∧
    bbS.intersects barS.image.bounding_box = true ∧
    Barrier.check_intersection cS barS boyS = some (RedHatBoy.knock_out cS boyS) ∧
    RedHatBoy.knock_out cS boyS ≠ RedHatBoy.land_on cS boyS barS.image.bounding_box.y := by
  decide

/-- C2 amended: the policy is not identical across obstacle kinds — a Barrier
emits KnockOut on every intersection of the character's bounding box with its
collision rectangle, regardless of vertical velocity or position, and leaves
the character unchanged otherwise; the Land rule applies only to Platform. -/
theorem c2_amended_barrier_always_knockout (c : Constants) (b : Barrier)
    (boy : RedHatBoy) (bb : Rect) (hbb : boy.bounding_box = some bb) :
    Barrier.check_intersection c b boy =
      some (if bb.intersects b.image.bounding_box then boy.knock_out c else boy) := by
  unfold Barrier.check_intersection
  rw [hbb]
  rfl

/-- C2 witness: the amended rule evaluated on the sample barrier and boy. -/
theorem c2_witness :
    Barrier.check_intersection cS barS boyS =
      some (if bbS.intersects barS.image.bounding_box
            then RedHatBoy.knock_out cS boyS else boyS) :=
  c2_amended_barrier_always_knockout cS barS boyS bbS (by decide)

/-- The sample boy's destination box. -/
def dS : Rect := Rect.new_from_x_y 110 320 160 136

/-- C3 counterexample: for the sample boy the bounding box sits 18 from the
destination box's left edge but only 10 from its right, and 14 below its top
but flush (0) with its bottom — it is not centered within the destination
box. -/
theorem c3_counterexample_not_centered :
    RedHatBoy.destination_box boyS = some dS ∧
    RedHatBoy.bounding_box boyS = some bbS ∧
    ¬(bbS.x - dS.x = dS.right - bbS.right) ∧
    ¬(bbS.y - dS.y = dS.bottom - bbS.bottom) := by
  decide

/-- C3 amended: whenever a current sprite exists, the bounding box is the
destination box shrunk by the fixed offsets — 18 from the left, 10 from the
right, 14 from the top and 0 from the bottom — hence strictly smaller on both
axes and contained in it (when the margins are nonnegative), but flush with
the bottom edge and not centered. -/
theorem c3_amended_bounding_box_offsets (boy : RedHatBoy) (sprite : Cell)
    (h : boy.current_sprite = some sprite) :
    ∃ d b : Rect, boy.destination_box = some d ∧ boy.bounding_box = some b ∧
      b.x = d.x + 18 ∧ b.y = d.y + 14 ∧
      b.width = d.width - 28 ∧ b.height = d.height - 14 ∧
      b.right = d.right - 10 ∧ b.bottom = d.bottom ∧
      b.width < d.width ∧ b.height < d.height := by
  unfold RedHatBoy.bounding_box RedHatBoy.destination_box
  rw [h]
  refine ⟨_, _, rfl, rfl, ?_, ?_, ?_, ?_, ?_, ?_, ?_, ?_⟩ <;>
    simp [Rect.new_from_x_y, Rect.x, Rect.y, Rect.right, Rect.bottom,
      X_OFFSET, Y_OFFSET, WIDTH_OFFSET] <;> omega

/-- C3 witness: the offsets evaluated on the sample boy. -/
theorem c3_witness :
    ∃ d b : Rect, RedHatBoy.destination_box boyS = some d ∧
      RedHatBoy.bounding_box boyS = some b ∧
      b.x = d.x + 18 ∧ b.y = d.y + 14 ∧
      b.width = d.width - 28 ∧ b.height = d.height - 14 ∧
      b.right = d.right - 10 ∧ b.bottom = d.bottom ∧
      b.width < d.width ∧ b.height < d.height :=
  c3_amended_bounding_box_offsets boyS cellS (by rfl)

/-- C8: initialization on an already Loaded instance always returns the
double-initialization error (it never silently succeeds and returns no new
game value), and an ok result is only ever produced from the Loading state
and is itself Loaded. -/
theorem c8_no_double_init (c : Constants) (g : WalkTheDog) (a : Assets) :
    (∀ w, g = .Loaded w →
      WalkTheDog.init c g a = .error "Error: Game is already initialized!") ∧
    (∀ g', WalkTheDog.init c g a = .ok g' → g = .Loading ∧ ∃ w', g' = .Loaded w') := by
  constructor
  · rintro w rfl
    rfl
  · intro g' hok
    cases g with
    | Loaded w => exact absurd hok (by simp [WalkTheDog.init])
    | Loading =>
        refine ⟨rfl, ?_⟩
        obtain ⟨s, i, bg, st, t, ti⟩ := a
        cases s <;> cases i <;> cases bg <;> cases st <;> cases t <;> cases ti <;>
          simp only [WalkTheDog.init] at hok <;> cases hok <;> exact ⟨_, rfl⟩

/-- C8 witness: the double-init error on a loaded sample, and a Loaded result
from Loading with complete assets. -/
theorem c8_witness :
    WalkTheDog.init cS (.Loaded walkS) assetsFull
        = .error "Error: Game is already initialized!" ∧
    ∃ w', ((WalkTheDog.init cS .Loading assetsFull).toOption.getD .Loading) = .Loaded w' :=
  ⟨(c8_no_double_init cS (.Loaded walkS) assetsFull).1 walkS rfl,
   ((c8_no_double_init cS .Loading assetsFull).2 _ (by rfl)).2⟩

/-- C9 counterexample: Platform::new with a sprite name absent from the sheet
does not abort — it returns a platform with that sprite silently dropped
(empty sprite list) while keeping the supplied collision rectangle. -/
theorem c9_counterexample_silent_drop :
    SpriteSheet.cell sheetEmptyS "13.png" = none ∧
    (Platform.new sheetEmptyS ⟨370, 420⟩ ["13.png"] [rA]).sprites = [] ∧
    (Platform.new sheetEmptyS ⟨370, 420⟩ ["13.png"] [rA]).bounding_boxes
      = [Rect.new_from_x_y 370 420 10 10] := by
  decide

/-- A boy whose sheet has no cells, so every frame lookup misses. -/
def boyNoSheet : RedHatBoy := ⟨.Idle ⟨⟨0, 0⟩, ⟨0, 0⟩, 0⟩, ⟨[]⟩⟩

/-- C9 amended: the character's frame-name lookups abort (panic) when the
frame is absent from the sheet — its destination and bounding boxes are the
panic value — but Platform construction does not abort on an absent sprite
name: the name is silently filtered out while the supplied collision
rectangles are all kept. -/
theorem c9_amended_lookup_behaviour :
    (∀ boy : RedHatBoy, boy.current_sprite = none →
      boy.destination_box = none ∧ boy.bounding_box = none) ∧
    (∀ (sheet : SpriteSheet) (pos : Point) (names : List String) (rects : List Rect),
      (Platform.new sheet pos names rects).sprites
        = names.filterMap (fun n => sheet.cell n) ∧
      (Platform.new sheet pos names rects).bounding_boxes.length = rects.length) := by
  constructor
  · intro boy h
    unfold RedHatBoy.bounding_box RedHatBoy.destination_box
    rw [h]
    exact ⟨rfl, rfl⟩
  · intro sheet pos names rects
    exact ⟨rfl, by simp [Platform.new]⟩

/-- C9 witness: the panic on the sample boy with an empty sheet, and the
silent filtering on the sample platform construction. -/
theorem c9_witness :
    (RedHatBoy.destination_box boyNoSheet = none ∧
      RedHatBoy.bounding_box boyNoSheet = none) ∧
    ((Platform.new sheetEmptyS ⟨370, 420⟩ ["13.png"] [rA]).sprites
        = (["13.png"] : List String).filterMap (fun n => SpriteSheet.cell sheetEmptyS n) ∧
      (Platform.new sheetEmptyS ⟨370, 420⟩ ["13.png"] [rA]).bounding_boxes.length
        = ([rA] : List Rect).length) :=
  ⟨c9_amended_lookup_behaviour.1 boyNoSheet rfl,
   c9_amended_lookup_behaviour.2 sheetEmptyS ⟨370, 420⟩ ["13.png"] [rA]⟩

end RHB
